import Mathlib

/-!
Shallow embedding of `pkg/mattermost/mattermost.go` (botkube Mattermost bot).

External collaborators (the Mattermost client API, the JSON post decoder and
the command Executor) are passed in as function-valued oracles; each embedded
operation returns, besides its result, the trace of outbound client calls it
performed.  A Go runtime panic (nil-pointer dereference, out-of-range index,
failed type assertion) is modelled explicitly: either as a dedicated `crash`
constructor or as a `crashed` flag in the outcome record, set at exactly the
program points where the Go code would panic.

Go strings are modelled as Lean `String`; `strings.HasPrefix` /
`strings.TrimPrefix` are byte-wise in Go but coincide with character-wise
operations on valid UTF-8, which is what `strHasPfx` / `strTrimPfx` compute.
Go `len` on a string counts UTF-8 bytes, modelled by `goLen` via
`String.utf8ByteSize`.
-/

namespace Mattermost

/-- Constant from the source: `BotName = "botkube"`. -/
def BotName : String := "botkube"

/-- Constant from the source: `ChannelPurpose = "Botkube alerts"`. -/
def ChannelPurpose : String := "Botkube alerts"

/-- Constant from the source: `Logs = "logs"` (fixed upload file name). -/
def Logs : String := "logs"

/-- Constant of the mattermost-server model library: `model.CHANNEL_OPEN = "O"`. -/
def CHANNEL_OPEN : String := "O"

/-- Constant of the mattermost-server model library:
`model.WEBSOCKET_EVENT_POSTED = "posted"`. -/
def WEBSOCKET_EVENT_POSTED : String := "posted"

/-- Go `strings.HasPrefix s p`. -/
def strHasPfx (s p : String) : Bool := p.data.isPrefixOf s.data

/-- Go `strings.TrimPrefix s p`: drops the leading `p` when present,
otherwise returns `s` unchanged. -/
def strTrimPfx (s p : String) : String :=
  if strHasPfx s p then String.mk (s.data.drop p.data.length) else s

/-- Go `len` on a string: its UTF-8 byte count. -/
def goLen (s : String) : Nat := s.utf8ByteSize

/-- The fields of `model.Post` that the source reads or writes.  The default
values are the Go zero values, so `{}` is the `&model.Post{}` of `sendMessage`. -/
structure Post where
  Id : String := ""
  UserId : String := ""
  ChannelId : String := ""
  RootId : String := ""
  Message : String := ""
  FileIds : List String := []
deriving DecidableEq, Repr

/-- The fields of `model.Channel` the source uses (`Type` is a Lean keyword,
so the channel-type field is named `ctype`). Defaults are Go zero values. -/
structure Channel where
  Id : String := ""
  Name : String := ""
  DisplayName : String := ""
  Purpose : String := ""
  ctype : String := ""
  TeamId : String := ""
deriving DecidableEq, Repr

/-- The fields of `model.User` the source uses. -/
structure User where
  Id : String := ""
  Username : String := ""
deriving DecidableEq, Repr

/-- `model.UserAutocomplete`: the result of `AutocompleteUsersInTeam`. -/
structure UserAutocomplete where
  Users : List User
deriving DecidableEq, Repr

/-- `model.FileInfo`: one uploaded file's metadata. -/
structure FileInfo where
  Id : String := ""
deriving DecidableEq, Repr

/-- `model.FileUploadResponse`: result of `UploadFileAsRequestBody`. -/
structure FileUploadResponse where
  FileInfos : List FileInfo
deriving DecidableEq, Repr

/-- An error carried in a `model.Response` (`resp.Error`), abstracted to its
message text.  An API call result is paired with `Option Err`: `none` models a
nil `resp.Error` (success), `some e` a non-nil one. -/
abbrev Err := String

/-- The broadcast block of a `model.WebSocketEvent`. -/
structure EventBroadcast where
  ChannelId : String
deriving DecidableEq, Repr

/-- The value found at `event.Data["post"]`: absent key aside, the dynamic
value is either a string or some non-string value (on which the source's
`.(string)` type assertion panics). -/
inductive PayloadVal where
  | str (s : String)
  | nonStr
deriving DecidableEq, Repr

/-- The fields of `model.WebSocketEvent` the source reads: the event type tag,
the `Data["post"]` entry (`none` models an absent key) and the broadcast
target. -/
structure WebSocketEvent where
  Event : String
  DataPost : Option PayloadVal
  Broadcast : EventBroadcast
deriving DecidableEq, Repr

/-- Result of `getBotUser`: the returned pair `(user, error)`, or `crash` when
the Go code panics (`users.Users[0]` on an empty — or nil — result set). -/
inductive UserLookup where
  | ok (u : User)
  | err (e : Err)
  | crash
deriving DecidableEq, Repr

/-- `true` exactly on the `err` constructor. -/
def UserLookup.isErr : UserLookup → Bool
  | .err _ => true
  | _ => false

/-- `getBotUser` from the source.  `autocompleteUsersInTeam teamID name`
models `client.AutocompleteUsersInTeam(teamID, name, "")` returning the pair
(value, `resp.Error`).  The Go code returns the error when `resp.Error` is
non-nil and otherwise returns `users.Users[0]` without checking that the
result set is non-empty, which panics on an empty (or nil) set. -/
def getBotUser
    (autocompleteUsersInTeam : String → String → Option UserAutocomplete × Option Err)
    (teamID : String) : UserLookup :=
  match autocompleteUsersInTeam teamID BotName with
  | (_, some e) => .err e
  | (none, none) => .crash
  | (some users, none) =>
    match users.Users with
    | [] => .crash
    | u :: _ => .ok u

/-- `mmChannel` from the source: the channel record passed to `CreateChannel`. -/
def mmChannel (channelName teamID : String) : Channel :=
  { Name := channelName, DisplayName := channelName, Purpose := ChannelPurpose,
    ctype := CHANNEL_OPEN, TeamId := teamID }

/-- Outcome of `getBotChannel`: the returned `(channel, error)` pair, the
`CreateChannel` calls issued, the `AddChannelMember` calls issued (channel id,
user id), and whether the code panicked (nil channel dereference). -/
structure ChannelSetup where
  result : Option Channel
  error : Option Err
  createCalls : List Channel
  memberCalls : List (String × String)
  crashed : Bool
deriving DecidableEq, Repr

/-- `getBotChannel` from the source.  `getChannelByName name teamID` models
`client.GetChannelByName(name, teamID, "")`; `createChannel c` models
`client.CreateChannel(c)`; both return (value, `resp.Error`).
`addChannelMember` models `client.AddChannelMember`, whose result the source
discards entirely.  When the lookup reports any error the code immediately
attempts creation; a creation error is returned; otherwise the bot user is
added to the (found or created) channel and the channel is returned with no
error. -/
def getBotChannel
    (getChannelByName : String → String → Option Channel × Option Err)
    (createChannel : Channel → Option Channel × Option Err)
    (addChannelMember : String → String → Option Err)
    (channelName botTeamID botUserID : String) : ChannelSetup :=
  match getChannelByName channelName botTeamID with
  | (found, none) =>
    match found with
    | some ch =>
      let _ := addChannelMember ch.Id botUserID
      { result := some ch, error := none, createCalls := [],
        memberCalls := [(ch.Id, botUserID)], crashed := false }
    | none =>
      -- a nil channel with a nil error: `botChannel.Id` would dereference nil
      { result := none, error := none, createCalls := [],
        memberCalls := [], crashed := true }
  | (_, some _) =>
    match createChannel (mmChannel channelName botTeamID) with
    | (created, some e) =>
      { result := created, error := some e,
        createCalls := [mmChannel channelName botTeamID],
        memberCalls := [], crashed := false }
    | (some ch, none) =>
      let _ := addChannelMember ch.Id botUserID
      { result := some ch, error := none,
        createCalls := [mmChannel channelName botTeamID],
        memberCalls := [(ch.Id, botUserID)], crashed := false }
    | (none, none) =>
      { result := none, error := none,
        createCalls := [mmChannel channelName botTeamID],
        memberCalls := [], crashed := true }

/-- Outcome of `sendMessage`: the `UploadFileAsRequestBody` calls (data,
channel id, file name), the `CreatePost` calls, and whether the code panicked
(`res.FileInfos[0]` on a nil or empty upload result). -/
structure SendOutcome where
  uploadCalls : List (String × String × String)
  postCalls : List Post
  crashed : Bool
deriving DecidableEq, Repr

/-- `sendMessage` from the source.  `uploadFileAsRequestBody data channelID
name` models the upload call returning (value, `resp.Error`); `createPost p`
models `client.CreatePost(p)`, of which the source only inspects
`resp.Error` (logged, then discarded).  For a message of byte length ≥ 3990
the text is uploaded under the fixed name `Logs` and the post carries only
the first returned file id; the source reads `res.FileInfos[0]`
unconditionally — even when the upload reported an error — which panics when
the result is nil or holds no file infos.  Otherwise the message is the post's
inline body.  A `CreatePost` error is logged and swallowed. -/
def sendMessage
    (uploadFileAsRequestBody : String → String → String → Option FileUploadResponse × Option Err)
    (createPost : Post → Option Err)
    (msg postID channelID : String) : SendOutcome :=
  let post0 : Post := { ChannelId := channelID, RootId := postID }
  if 3990 ≤ goLen msg then
    match uploadFileAsRequestBody msg channelID Logs with
    | (none, _) =>
      { uploadCalls := [(msg, channelID, Logs)], postCalls := [], crashed := true }
    | (some r, _) =>
      match r.FileInfos with
      | [] =>
        { uploadCalls := [(msg, channelID, Logs)], postCalls := [], crashed := true }
      | fi :: _ =>
        let p := { post0 with FileIds := [fi.Id] }
        let _ := createPost p
        { uploadCalls := [(msg, channelID, Logs)], postCalls := [p], crashed := false }
  else
    let p := { post0 with Message := msg }
    let _ := createPost p
    { uploadCalls := [], postCalls := [p], crashed := false }

/-- The argument tuple of one Executor invocation:
`execute.NewDefaultExecutor(inMessage, allowkubectl, clusterName, channelName,
isAuthChannel).Execute()`. -/
structure ExecutorCall where
  inMessage : String
  allowKubectl : Bool
  clusterName : String
  channelName : String
  isAuthChannel : Bool
deriving DecidableEq, Repr

/-- The argument tuple of one `sendMessage` invocation. -/
structure SendCall where
  msg : String
  postID : String
  channelID : String
deriving DecidableEq, Repr

/-- Outcome of `handleMessage`: the Executor invocations, the `sendMessage`
invocations, and whether the code panicked (failed `.(string)` type assertion
on `event.Data["post"]`, or nil post returned by `model.PostFromJson`). -/
structure HandleOutcome where
  executorCalls : List ExecutorCall
  sendCalls : List SendCall
  crashed : Bool
deriving DecidableEq, Repr

/-- `handleMessage` from the source.  `postFromJson` models
`model.PostFromJson` (`none` = nil, i.e. an unparseable payload); `execute`
models the external Executor; `botUserId` / `botChannelId` are the identities
the bootstrap stored in the package-level `botUser` / `botChannel` variables.
Events whose type is not `WEBSOCKET_EVENT_POSTED` are dropped; a missing or
non-string `Data["post"]` entry panics at the `.(string)` type assertion; a
nil parsed post panics at the first field access; posts authored by the bot or
lacking the `"@botkube "` mention are dropped; otherwise the Executor runs on
the trimmed text, an empty result is logged and dropped, and a non-empty
result is backquote-wrapped and handed to `sendMessage` addressed to the
originating post and broadcast channel. -/
def handleMessage
    (postFromJson : String → Option Post)
    (execute : ExecutorCall → String)
    (botUserId botChannelId : String)
    (event : WebSocketEvent) (allowkubectl : Bool) (clusterName channelName : String) :
    HandleOutcome :=
  if event.Event ≠ WEBSOCKET_EVENT_POSTED then
    { executorCalls := [], sendCalls := [], crashed := false }
  else
    match event.DataPost with
    | none => { executorCalls := [], sendCalls := [], crashed := true }
    | some PayloadVal.nonStr => { executorCalls := [], sendCalls := [], crashed := true }
    | some (PayloadVal.str s) =>
      match postFromJson s with
      | none => { executorCalls := [], sendCalls := [], crashed := true }
      | some post =>
        if post.UserId == botUserId || !(strHasPfx post.Message ("@" ++ BotName ++ " ")) then
          { executorCalls := [], sendCalls := [], crashed := false }
        else
          let inMessage := strTrimPfx post.Message ("@" ++ BotName ++ " ")
          let isAuthChannel : Bool :=
            if event.Broadcast.ChannelId = botChannelId then true else false
          let call : ExecutorCall :=
            { inMessage := inMessage, allowKubectl := allowkubectl,
              clusterName := clusterName, channelName := channelName,
              isAuthChannel := isAuthChannel }
          let outMessage := execute call
          if outMessage = "" then
            { executorCalls := [call], sendCalls := [], crashed := false }
          else
            { executorCalls := [call],
              sendCalls := [{ msg := "`" ++ outMessage ++ "`", postID := post.Id,
                              channelID := event.Broadcast.ChannelId }],
              crashed := false }

/-- The Executor argument tuple that `handleMessage` builds for an accepted
post: the mention-trimmed text, the three pass-through parameters, and the
authorization flag comparing the event's broadcast channel with the
bootstrap-resolved channel id.  This names the `call` value of the source's
accepted path so that theorems can refer to it. -/
def acceptedCall (post : Post) (ev : WebSocketEvent) (ak : Bool) (cn chn bc : String) :
    ExecutorCall :=
  { inMessage := strTrimPfx post.Message ("@" ++ BotName ++ " "),
    allowKubectl := ak, clusterName := cn, channelName := chn,
    isAuthChannel := if ev.Broadcast.ChannelId = bc then true else false }

/-! Concrete oracle instantiations and sample data, used to evaluate the
embedded operations on closed inputs. -/

/-- A decoder that parses every payload to the fixed post `p`. -/
def ppConst (p : Post) : String → Option Post := fun _ => some p

/-- A decoder that fails (returns nil) on every payload. -/
def ppNil : String → Option Post := fun _ => none

/-- An Executor echoing the command text it received. -/
def exEcho : ExecutorCall → String := fun c => c.inMessage

/-- An Executor returning the empty result for every command. -/
def exEmpty : ExecutorCall → String := fun _ => ""

/-- A member search that succeeds with an empty result set. -/
def acNoUsers : String → String → Option UserAutocomplete × Option Err :=
  fun _ _ => (some { Users := [] }, none)

/-- A member search failing with a transport error. -/
def acFail : String → String → Option UserAutocomplete × Option Err :=
  fun _ _ => (none, some "connection refused")

/-- An upload call failing with an error and a nil result. -/
def uploadNil : String → String → String → Option FileUploadResponse × Option Err :=
  fun _ _ _ => (none, some "upload failed")

/-- An upload call succeeding with the single file info `fi`. -/
def uploadOne (fi : FileInfo) : String → String → String → Option FileUploadResponse × Option Err :=
  fun _ _ _ => (some { FileInfos := [fi] }, none)

/-- A post-creation call that succeeds. -/
def cpOk : Post → Option Err := fun _ => none

/-- A channel lookup finding the fixed channel `ch`. -/
def chanFound (ch : Channel) : String → String → Option Channel × Option Err :=
  fun _ _ => (some ch, none)

/-- A channel lookup failing (as it does when the channel is absent, but also
on any transport failure). -/
def chanMissing : String → String → Option Channel × Option Err :=
  fun _ _ => (none, some "channel not found")

/-- A channel creation call returning the spec it was given with id `"NEW"`. -/
def createOk : Channel → Option Channel × Option Err :=
  fun c => (some { c with Id := "NEW" }, none)

/-- A channel creation call that fails. -/
def createFail : Channel → Option Channel × Option Err :=
  fun _ => (none, some "create failed")

/-- A membership-add call that succeeds. -/
def addOk : String → String → Option Err := fun _ _ => none

/-- A membership-add call that fails. -/
def addFail : String → String → Option Err := fun _ _ => some "already a member"

/-- A post addressed to the bot by another user. -/
def goodPost : Post := { Id := "P1", UserId := "U9", Message := "@botkube get pods" }

/-- An existing channel, as a lookup would return it. -/
def chA : Channel := { Id := "A1", Name := "general" }

/-- A well-formed "posted" event whose broadcast channel is `CH1`. -/
def goodEv : WebSocketEvent :=
  { Event := "posted", DataPost := some (PayloadVal.str "payload"), Broadcast := { ChannelId := "CH1" } }

/-- A "posted" event with no `Data["post"]` entry. -/
def evNoPayload : WebSocketEvent :=
  { Event := "posted", DataPost := none, Broadcast := { ChannelId := "CH1" } }

/-- A "posted" event whose `Data["post"]` entry is not a string. -/
def evNonStr : WebSocketEvent :=
  { Event := "posted", DataPost := some PayloadVal.nonStr, Broadcast := { ChannelId := "CH1" } }

/-- A non-post event (typing indicator). -/
def evTyping : WebSocketEvent :=
  { Event := "typing", DataPost := some (PayloadVal.str "payload"), Broadcast := { ChannelId := "CH1" } }

/-- A 3990-character ASCII message, hence of Go byte length exactly 3990:
the smallest size routed to the file-upload path. -/
def bigMsg : String := String.mk (List.replicate 3990 'a')

/-! Helper lemmas about the string model. -/

theorem strHasPfx_append (p r : String) : strHasPfx (p ++ r) p = true := by
  simp [strHasPfx, String.data_append, List.isPrefixOf_iff_prefix]

theorem strTrimPfx_append (p r : String) : strTrimPfx (p ++ r) p = r := by
  unfold strTrimPfx
  rw [strHasPfx_append]
  simp [String.data_append, List.drop_left]

theorem utf8Len_replicate_a (n : Nat) : String.utf8Len (List.replicate n 'a') = n := by
  induction n with
  | zero => rfl
  | succ k ih =>
    have ha : ('a').utf8Size = 1 := by decide
    simp [List.replicate, ih, ha]

theorem goLen_bigMsg : goLen bigMsg = 3990 := by
  show String.utf8Len (List.replicate 3990 'a') = 3990
  exact utf8Len_replicate_a 3990

/-! Claim theorems. -/

/-- Claim C1, evaluated at the failing input: when `sendMessage` is given a
3990-byte message and the upload call fails returning an error and no file
information (a nil result), `sendMessage` does not return normally — it
panics dereferencing the nil upload result (`res.FileInfos[0]`) after logging
the error, and the post-creation call is never reached.  This contradicts the
claim that any upload failure is logged and swallowed with `Send` returning
normally. -/
theorem C1_upload_failure_crashes :
    sendMessage uploadNil cpOk bigMsg "P1" "CH1" =
      { uploadCalls := [(bigMsg, "CH1", Logs)], postCalls := [], crashed := true } := by
  unfold sendMessage
  rw [if_pos (by rw [goLen_bigMsg])]
  rfl

/-- Claim C2, evaluated at the failing input: when the member search succeeds
with an empty result set, `getBotUser` does not abort with a "bot user not
found" error — it panics on the unchecked `users.Users[0]` index.  (For a
lookup error the code does return the error, and no create-user call exists
anywhere in the source; the empty-result case is the violating one.) -/
theorem C2_empty_result_crashes :
    getBotUser acNoUsers "T1" = UserLookup.crash ∧
    (getBotUser acNoUsers "T1").isErr = false := by
  exact ⟨rfl, rfl⟩

/-- Claim C3, counterexample: a "posted" event whose `Data["post"]` key is
absent makes `handleMessage` panic at the `.(string)` type assertion
(`crashed = true`) — the event is not logged-and-abandoned with the listener
continuing, contrary to the claim. -/
theorem C3_counterexample :
    handleMessage ppNil exEcho "BOT" "CH1" evNoPayload true "cl" "chan" =
      { executorCalls := [], sendCalls := [], crashed := true } := rfl

/-- Claim C3 as amended: for every "posted" event whose payload is malformed
(the `Data["post"]` field missing, not a string, or not a parseable post
record), `handleMessage` performs zero Executor calls and zero `sendMessage`
calls, but it crashes (unchecked type assertion / nil-post dereference)
rather than logging the failure and continuing. -/
theorem C3_malformed_payload_crashes
    (pp : String → Option Post) (ex : ExecutorCall → String)
    (bu bc : String) (ev : WebSocketEvent) (ak : Bool) (cn chn : String)
    (hev : ev.Event = WEBSOCKET_EVENT_POSTED)
    (hbad : ev.DataPost = none ∨ ev.DataPost = some PayloadVal.nonStr ∨
            ∃ s, ev.DataPost = some (PayloadVal.str s) ∧ pp s = none) :
    handleMessage pp ex bu bc ev ak cn chn =
      { executorCalls := [], sendCalls := [], crashed := true } := by
  unfold handleMessage
  rw [if_neg (by simp [hev])]
  rcases hbad with h | h | ⟨s, h, hpp⟩
  · simp [h]
  · simp [h]
  · simp [h, hpp]

/-- Claim C3, witness for the amended statement: the non-string payload case
at a concrete event. -/
theorem C3_witness :
    handleMessage ppNil exEcho "BOT" "CH1" evNonStr true "cl" "chan" =
      { executorCalls := [], sendCalls := [], crashed := true } :=
  C3_malformed_payload_crashes ppNil exEcho "BOT" "CH1" evNonStr true "cl" "chan"
    rfl (Or.inr (Or.inl rfl))

/-- Characterization of `handleMessage` on an accepted event — a "posted"
event with a parseable payload whose author is not the bot and whose message
carries the mention — in terms of `acceptedCall`. -/
theorem handleMessage_accepted
    (pp : String → Option Post) (ex : ExecutorCall → String)
    (bu bc : String) (ev : WebSocketEvent) (ak : Bool) (cn chn : String)
    (s : String) (post : Post)
    (hev : ev.Event = WEBSOCKET_EVENT_POSTED)
    (hdp : ev.DataPost = some (PayloadVal.str s))
    (hpp : pp s = some post)
    (hu : post.UserId ≠ bu)
    (hm : strHasPfx post.Message ("@" ++ BotName ++ " ") = true) :
    handleMessage pp ex bu bc ev ak cn chn =
      if ex (acceptedCall post ev ak cn chn bc) = "" then
        { executorCalls := [acceptedCall post ev ak cn chn bc],
          sendCalls := [], crashed := false }
      else
        { executorCalls := [acceptedCall post ev ak cn chn bc],
          sendCalls := [{ msg := "`" ++ ex (acceptedCall post ev ak cn chn bc) ++ "`",
                          postID := post.Id, channelID := ev.Broadcast.ChannelId }],
          crashed := false } := by
  unfold handleMessage
  rw [if_neg (by simp [hev])]
  have hcond : ((post.UserId == bu) ||
      !(strHasPfx post.Message ("@" ++ BotName ++ " "))) = false := by
    simp [hu, hm]
  simp [hdp, hpp, hcond, acceptedCall]

/-- Claim C4: `handleMessage` invokes the Executor (and hence `sendMessage`)
only if the event's type tag is `WEBSOCKET_EVENT_POSTED`, the parsed post's
author differs from the bot's identity, and the message starts with the
exact mention `"@botkube "`; an event whose type differs, or whose parsed
post is bot-authored or lacks the mention, yields zero Executor calls and
zero `sendMessage` calls. -/
theorem C4_dispatch_gate
    (pp : String → Option Post) (ex : ExecutorCall → String)
    (bu bc : String) (ev : WebSocketEvent) (ak : Bool) (cn chn : String) :
    (ev.Event ≠ WEBSOCKET_EVENT_POSTED →
      handleMessage pp ex bu bc ev ak cn chn =
        { executorCalls := [], sendCalls := [], crashed := false }) ∧
    (∀ s post, ev.DataPost = some (PayloadVal.str s) → pp s = some post →
      (post.UserId = bu ∨ strHasPfx post.Message ("@" ++ BotName ++ " ") = false) →
      (handleMessage pp ex bu bc ev ak cn chn).executorCalls = [] ∧
      (handleMessage pp ex bu bc ev ak cn chn).sendCalls = []) ∧
    ((handleMessage pp ex bu bc ev ak cn chn).executorCalls ≠ [] ∨
        (handleMessage pp ex bu bc ev ak cn chn).sendCalls ≠ [] →
      ev.Event = WEBSOCKET_EVENT_POSTED ∧
      ∃ s post, ev.DataPost = some (PayloadVal.str s) ∧ pp s = some post ∧
        post.UserId ≠ bu ∧ strHasPfx post.Message ("@" ++ BotName ++ " ") = true) := by
  refine ⟨?_, ?_, ?_⟩
  · intro hev
    unfold handleMessage
    rw [if_pos hev]
  · intro s post hdp hpp hcond
    by_cases hev : ev.Event = WEBSOCKET_EVENT_POSTED
    · unfold handleMessage
      rw [if_neg (by simp [hev])]
      rcases hcond with h | h
      · simp [hdp, hpp, h]
      · simp [hdp, hpp, h]
    · unfold handleMessage
      rw [if_pos hev]
      exact ⟨rfl, rfl⟩
  · intro h
    by_cases hev : ev.Event = WEBSOCKET_EVENT_POSTED
    · refine ⟨hev, ?_⟩
      unfold handleMessage at h
      rw [if_neg (by simp [hev])] at h
      cases hdp : ev.DataPost with
      | none => simp [hdp] at h
      | some v =>
        cases v with
        | nonStr => simp [hdp] at h
        | str s =>
          cases hpp : pp s with
          | none => simp [hdp, hpp] at h
          | some post =>
            by_cases hc :
                ((post.UserId == bu) ||
                  !(strHasPfx post.Message ("@" ++ BotName ++ " "))) = true
            · simp [hdp, hpp, hc] at h
            · simp only [Bool.or_eq_true, Bool.not_eq_true', beq_iff_eq, not_or] at hc
              refine ⟨s, post, rfl, hpp, hc.1, ?_⟩
              have := hc.2
              simp only [Bool.not_eq_false] at this
              exact this
    · unfold handleMessage at h
      rw [if_pos hev] at h
      simp at h

/-- Claim C4, witness: a typing event yields no calls at all, and a
bot-authored post (author id equal to the bot id) yields no Executor and no
`sendMessage` calls. -/
theorem C4_witness :
    handleMessage (ppConst goodPost) exEcho "BOT" "CH1" evTyping true "cl" "chan" =
      { executorCalls := [], sendCalls := [], crashed := false } ∧
    (handleMessage (ppConst goodPost) exEcho "U9" "CH1" goodEv true "cl" "chan").executorCalls
        = [] ∧
    (handleMessage (ppConst goodPost) exEcho "U9" "CH1" goodEv true "cl" "chan").sendCalls
        = [] :=
  ⟨(C4_dispatch_gate (ppConst goodPost) exEcho "BOT" "CH1" evTyping true "cl" "chan").1
      (by decide),
   (C4_dispatch_gate (ppConst goodPost) exEcho "U9" "CH1" goodEv true "cl" "chan").2.1
      "payload" goodPost rfl rfl (Or.inl rfl)⟩

/-- Claim C5: for an accepted post whose message is the mention `"@botkube "`
followed by `rest`, the command text passed to the Executor is exactly
`rest` — the message with exactly the leading mention removed. -/
theorem C5_command_text
    (pp : String → Option Post) (ex : ExecutorCall → String)
    (bu bc : String) (ev : WebSocketEvent) (ak : Bool) (cn chn : String)
    (s rest : String) (post : Post)
    (hev : ev.Event = WEBSOCKET_EVENT_POSTED)
    (hdp : ev.DataPost = some (PayloadVal.str s))
    (hpp : pp s = some post)
    (hu : post.UserId ≠ bu)
    (hmsg : post.Message = ("@" ++ BotName ++ " ") ++ rest) :
    (handleMessage pp ex bu bc ev ak cn chn).executorCalls.map ExecutorCall.inMessage
      = [rest] := by
  have hm : strHasPfx post.Message ("@" ++ BotName ++ " ") = true := by
    rw [hmsg]; exact strHasPfx_append _ _
  rw [handleMessage_accepted pp ex bu bc ev ak cn chn s post hev hdp hpp hu hm]
  have ht : strTrimPfx post.Message ("@" ++ BotName ++ " ") = rest := by
    rw [hmsg]; exact strTrimPfx_append _ _
  split <;> simp [acceptedCall, ht]

/-- Claim C5, witness: the message `"@botkube get pods"` passes exactly
`"get pods"` to the Executor. -/
theorem C5_witness :
    (handleMessage (ppConst goodPost) exEcho "BOT" "CH1" goodEv true "cl" "chan").executorCalls.map
      ExecutorCall.inMessage = ["get pods"] :=
  C5_command_text (ppConst goodPost) exEcho "BOT" "CH1" goodEv true "cl" "chan"
    "payload" "get pods" goodPost rfl rfl rfl (by decide) (by decide)

/-- Claim C6: for an accepted event the Executor is invoked with the
authorization flag computed as `true` exactly when the event's broadcast
channel id equals the channel id resolved at bootstrap, and `false`
otherwise; the flag is merely passed through (the invocation happens for
every channel id, authorized or not). -/
theorem C6_auth_flag
    (pp : String → Option Post) (ex : ExecutorCall → String)
    (bu bc : String) (ev : WebSocketEvent) (ak : Bool) (cn chn : String)
    (s : String) (post : Post)
    (hev : ev.Event = WEBSOCKET_EVENT_POSTED)
    (hdp : ev.DataPost = some (PayloadVal.str s))
    (hpp : pp s = some post)
    (hu : post.UserId ≠ bu)
    (hm : strHasPfx post.Message ("@" ++ BotName ++ " ") = true) :
    (handleMessage pp ex bu bc ev ak cn chn).executorCalls.map ExecutorCall.isAuthChannel
      = [if ev.Broadcast.ChannelId = bc then true else false] ∧
    ((if ev.Broadcast.ChannelId = bc then true else false) = true ↔
      ev.Broadcast.ChannelId = bc) := by
  constructor
  · rw [handleMessage_accepted pp ex bu bc ev ak cn chn s post hev hdp hpp hu hm]
    split <;> simp [acceptedCall]
  · by_cases hb : ev.Broadcast.ChannelId = bc
    · simp [hb]
    · simp [hb]

/-- Claim C6, witness: with the bootstrap channel `CH1`, an event broadcast
in `CH1` yields the flag `true` and an event broadcast elsewhere yields
`false`, the Executor being invoked in both cases. -/
theorem C6_witness :
    (handleMessage (ppConst goodPost) exEcho "BOT" "CH1" goodEv true "cl" "chan").executorCalls.map
        ExecutorCall.isAuthChannel = [true] ∧
    (handleMessage (ppConst goodPost) exEcho "BOT" "OTHER" goodEv true "cl" "chan").executorCalls.map
        ExecutorCall.isAuthChannel = [false] := by
  constructor
  · have h := (C6_auth_flag (ppConst goodPost) exEcho "BOT" "CH1" goodEv true "cl" "chan"
      "payload" goodPost rfl rfl rfl (by decide) (by decide)).1
    exact h.trans (by decide)
  · have h := (C6_auth_flag (ppConst goodPost) exEcho "BOT" "OTHER" goodEv true "cl" "chan"
      "payload" goodPost rfl rfl rfl (by decide) (by decide)).1
    exact h.trans (by decide)

/-- Claim C9: for an accepted event whose Executor invocation returns the
empty string, `handleMessage` drops the event: the Executor was called
exactly once and `sendMessage` is never called. -/
theorem C9_empty_result_drops
    (pp : String → Option Post) (ex : ExecutorCall → String)
    (bu bc : String) (ev : WebSocketEvent) (ak : Bool) (cn chn : String)
    (s : String) (post : Post)
    (hev : ev.Event = WEBSOCKET_EVENT_POSTED)
    (hdp : ev.DataPost = some (PayloadVal.str s))
    (hpp : pp s = some post)
    (hu : post.UserId ≠ bu)
    (hm : strHasPfx post.Message ("@" ++ BotName ++ " ") = true)
    (hex : ex (acceptedCall post ev ak cn chn bc) = "") :
    handleMessage pp ex bu bc ev ak cn chn =
      { executorCalls := [acceptedCall post ev ak cn chn bc],
        sendCalls := [], crashed := false } := by
  rw [handleMessage_accepted pp ex bu bc ev ak cn chn s post hev hdp hpp hu hm]
  rw [if_pos hex]

/-- Claim C9, witness: an Executor returning the empty string on the sample
accepted event produces one Executor call and no send call. -/
theorem C9_witness :
    handleMessage (ppConst goodPost) exEmpty "BOT" "CH1" goodEv true "cl" "chan" =
      { executorCalls := [{ inMessage := "get pods", allowKubectl := true,
                            clusterName := "cl", channelName := "chan",
                            isAuthChannel := true }],
        sendCalls := [], crashed := false } :=
  (C9_empty_result_drops (ppConst goodPost) exEmpty "BOT" "CH1" goodEv true "cl" "chan"
      "payload" goodPost rfl rfl rfl (by decide) (by decide) rfl).trans (by decide)

/-- Claim C7: for a non-empty Executor result `r`, the reply handed to
`sendMessage` is the backquote-wrapped `r` addressed as a threaded reply to
the originating post in the event's broadcast channel; `sendMessage` posts a
message of byte length below 3990 as the inline body with no file attachment,
and for byte length at least 3990 uploads the text under the fixed name
`Logs` and creates a post carrying only the first returned file id and no
inline body. -/
theorem C7_reply_format
    (pp : String → Option Post) (ex : ExecutorCall → String)
    (bu bc : String) (ev : WebSocketEvent) (ak : Bool) (cn chn : String)
    (s r : String) (post : Post)
    (upload : String → String → String → Option FileUploadResponse × Option Err)
    (createPost : Post → Option Err)
    (msg postID channelID : String)
    (resp : FileUploadResponse) (fi : FileInfo) (fis : List FileInfo) :
    (ev.Event = WEBSOCKET_EVENT_POSTED →
      ev.DataPost = some (PayloadVal.str s) →
      pp s = some post →
      post.UserId ≠ bu →
      strHasPfx post.Message ("@" ++ BotName ++ " ") = true →
      ex (acceptedCall post ev ak cn chn bc) = r →
      r ≠ "" →
      (handleMessage pp ex bu bc ev ak cn chn).sendCalls =
        [{ msg := "`" ++ r ++ "`", postID := post.Id,
           channelID := ev.Broadcast.ChannelId }]) ∧
    (goLen msg < 3990 →
      sendMessage upload createPost msg postID channelID =
        { uploadCalls := [],
          postCalls := [{ Id := "", UserId := "", ChannelId := channelID,
                          RootId := postID, Message := msg, FileIds := [] }],
          crashed := false }) ∧
    (3990 ≤ goLen msg →
      upload msg channelID Logs = (some resp, none) →
      resp.FileInfos = fi :: fis →
      sendMessage upload createPost msg postID channelID =
        { uploadCalls := [(msg, channelID, Logs)],
          postCalls := [{ Id := "", UserId := "", ChannelId := channelID,
                          RootId := postID, Message := "", FileIds := [fi.Id] }],
          crashed := false }) := by
  refine ⟨?_, ?_, ?_⟩
  · intro hev hdp hpp hu hm hex hr
    rw [handleMessage_accepted pp ex bu bc ev ak cn chn s post hev hdp hpp hu hm]
    rw [hex]
    rw [if_neg hr]
  · intro hlen
    unfold sendMessage
    rw [if_neg (by omega)]
  · intro hlen hup hfis
    unfold sendMessage
    rw [if_pos hlen, hup]
    simp [hfis]

/-- Claim C7, witness: the sample accepted event replies with the wrapped
text threaded to post `P1` in channel `CH1`; a short message is posted
inline with no attachment; a 3990-byte message is uploaded as `logs` and
posted with only the file reference. -/
theorem C7_witness :
    (handleMessage (ppConst goodPost) exEcho "BOT" "CH1" goodEv true "cl" "chan").sendCalls =
      [{ msg := "`get pods`", postID := "P1", channelID := "CH1" }] ∧
    sendMessage (uploadOne { Id := "F1" }) cpOk "short" "P1" "CH1" =
      { uploadCalls := [],
        postCalls := [{ ChannelId := "CH1", RootId := "P1", Message := "short" }],
        crashed := false } ∧
    sendMessage (uploadOne { Id := "F1" }) cpOk bigMsg "P1" "CH1" =
      { uploadCalls := [(bigMsg, "CH1", Logs)],
        postCalls := [{ ChannelId := "CH1", RootId := "P1", FileIds := ["F1"] }],
        crashed := false } := by
  refine ⟨?_, ?_, ?_⟩
  · exact ((C7_reply_format (ppConst goodPost) exEcho "BOT" "CH1" goodEv true "cl" "chan"
      "payload" "get pods" goodPost (uploadOne { Id := "F1" }) cpOk "short" "P1" "CH1"
      { FileInfos := [{ Id := "F1" }] } { Id := "F1" } []).1
      rfl rfl rfl (by decide) (by decide) (by decide) (by decide)).trans (by decide)
  · exact (C7_reply_format (ppConst goodPost) exEcho "BOT" "CH1" goodEv true "cl" "chan"
      "payload" "get pods" goodPost (uploadOne { Id := "F1" }) cpOk "short" "P1" "CH1"
      { FileInfos := [{ Id := "F1" }] } { Id := "F1" } []).2.1 (by decide)
  · exact (C7_reply_format (ppConst goodPost) exEcho "BOT" "CH1" goodEv true "cl" "chan"
      "payload" "get pods" goodPost (uploadOne { Id := "F1" }) cpOk bigMsg "P1" "CH1"
      { FileInfos := [{ Id := "F1" }] } { Id := "F1" } []).2.2
      (by rw [goLen_bigMsg]) rfl rfl

/-- Claim C8: when the channel lookup succeeds (the channel already exists),
`getBotChannel` issues no create-channel call; when the lookup fails (as it
does for an absent channel), it issues exactly one create-channel call whose
record has purpose `ChannelPurpose` and type `CHANNEL_OPEN`; in both
successful cases the bot user is then added as a member of the resolved
channel, and the membership call's result never affects the returned value. -/
theorem C8_channel_setup
    (g : String → String → Option Channel × Option Err)
    (c : Channel → Option Channel × Option Err)
    (a : String → String → Option Err)
    (channelName teamID userID : String) (ch ch2 : Channel)
    (co co2 : Option Channel) (e e2 : Err) :
    (mmChannel channelName teamID =
      { Id := "", Name := channelName, DisplayName := channelName,
        Purpose := ChannelPurpose, ctype := CHANNEL_OPEN, TeamId := teamID }) ∧
    (g channelName teamID = (some ch, none) →
      getBotChannel g c a channelName teamID userID =
        { result := some ch, error := none, createCalls := [],
          memberCalls := [(ch.Id, userID)], crashed := false }) ∧
    (g channelName teamID = (co, some e) →
      c (mmChannel channelName teamID) = (some ch2, none) →
      getBotChannel g c a channelName teamID userID =
        { result := some ch2, error := none,
          createCalls := [mmChannel channelName teamID],
          memberCalls := [(ch2.Id, userID)], crashed := false }) ∧
    (g channelName teamID = (co, some e) →
      c (mmChannel channelName teamID) = (co2, some e2) →
      getBotChannel g c a channelName teamID userID =
        { result := co2, error := some e2,
          createCalls := [mmChannel channelName teamID],
          memberCalls := [], crashed := false }) := by
  refine ⟨rfl, ?_, ?_, ?_⟩
  · intro hg
    unfold getBotChannel
    rw [hg]
  · intro hg hc
    unfold getBotChannel
    rw [hg, hc]
  · intro hg hc
    unfold getBotChannel
    rw [hg, hc]
    cases co <;> cases co2 <;> rfl

/-- Claim C8, witness: with an existing channel the only calls are the lookup
and one membership add (whose failure is ignored); with an absent channel
exactly one create call is issued with the fixed purpose and open type. -/
theorem C8_witness :
    getBotChannel (chanFound chA) createOk addFail "general" "T1" "U1" =
      { result := some chA, error := none, createCalls := [],
        memberCalls := [("A1", "U1")], crashed := false } ∧
    getBotChannel chanMissing createOk addOk "general" "T1" "U1" =
      { result := some { mmChannel "general" "T1" with Id := "NEW" }, error := none,
        createCalls := [mmChannel "general" "T1"],
        memberCalls := [("NEW", "U1")], crashed := false } := by
  constructor
  · exact ((C8_channel_setup (chanFound chA) createOk addFail "general" "T1" "U1"
      chA chA (some chA) (some chA) "e" "e").2.1 rfl).trans (by decide)
  · exact ((C8_channel_setup chanMissing createOk addOk "general" "T1" "U1"
      chA { mmChannel "general" "T1" with Id := "NEW" } none none
      "channel not found" "e").2.2.1 rfl rfl).trans (by decide)

/-- Claim C10 (implicit): every failure of the channel-lookup call — whatever
the error — makes `getBotChannel` attempt exactly one create-channel call;
absence of the channel is never distinguished from any other lookup failure
before creating. -/
theorem C10_lookup_failure_creates
    (g : String → String → Option Channel × Option Err)
    (c : Channel → Option Channel × Option Err)
    (a : String → String → Option Err)
    (channelName teamID userID : String) (co : Option Channel) (e : Err)
    (h : g channelName teamID = (co, some e)) :
    (getBotChannel g c a channelName teamID userID).createCalls
      = [mmChannel channelName teamID] := by
  unfold getBotChannel
  rw [h]
  cases hc : c (mmChannel channelName teamID) with
  | mk co2 eo => cases eo <;> cases co2 <;> simp [hc]

/-- Claim C10, witness: a failing lookup paired with a failing creation still
issues exactly the one create-channel call. -/
theorem C10_witness :
    (getBotChannel chanMissing createFail addOk "general" "T1" "U1").createCalls
      = [mmChannel "general" "T1"] :=
  C10_lookup_failure_creates chanMissing createFail addOk "general" "T1" "U1"
    none "channel not found" rfl

end Mattermost
